import Mathlib

/-!
Verification development for the aio-serial repository.

The repository bridges a blocking serial-port device onto an asyncio
consumer.  Two source files carry the behaviour under scrutiny:

* `AIOSerialQueue.py` — a close-aware queue (`AIOSerialQueue`) carrying a
  close cause (`self._exc`), with `close`, `get_nowait`, `get`,
  `put_nowait`, `put`.
* `AIOSerial.py` — the engine (`AIOSerial`): an inline copy of the queue
  WITHOUT a close cause, the two worker loops `_rx_thread` / `_tx_thread`,
  and the public `read` / `write` / `close` surface.

The embedding below translates each Python definition into an executable
Lean definition.  Python exceptions become values of `Exc`; a raised
exception becomes an `Except.error` / dedicated result constructor.
The genuinely concurrent parts (the suspending `get`/`put` racing a
dequeue/enqueue task against the closed event, `asyncio.wait` with
`FIRST_COMPLETED`) are embedded by making the event-loop schedule an
explicit parameter (`GetRace` / `PutRace`): each constructor names one
realizable completion pattern of the two racing tasks at the moment the
waiting coroutine resumes.
-/

/-- Exceptions occurring in the two source files, identified by their
Python class (and message, where the code supplies one). -/
inductive Exc where
  /-- `AIOSerialQueueClosed()` — the default close cause. -/
  | queueClosed
  /-- `asyncio.QueueEmpty`, raised by the base-class `get_nowait`. -/
  | queueEmpty
  /-- `asyncio.QueueFull`, raised by the base-class `put_nowait`. -/
  | queueFull
  /-- `serial.SerialException` — the raw device error. -/
  | serialError (msg : String)
  /-- `AIOSerialException(msg)` — the engine's own exception class. -/
  | aioSerialError (msg : String)
  /-- `TypeError(msg)` raised by `AIOSerial.write` on invalid payloads. -/
  | typeError (msg : String)
  deriving DecidableEq, Repr

/-- State of `AIOSerialQueue` from `src/AIOSerialQueue.py`: the inherited
`asyncio.Queue` item list and `maxsize` (0 = unbounded, the default used
throughout the repository), the `_closed_ev` event flag, and the stored
close cause `_exc` (`none` until `close` runs; `close` assigns it in the
same uninterruptible step that sets the event). -/
structure AIOSerialQueue (T : Type) where
  items : List T
  maxsize : Nat
  closed_ev : Bool
  exc : Option Exc
  deriving DecidableEq, Repr

/-- `AIOSerialQueue()` as constructed by the repository: empty, unbounded,
open, no recorded cause. -/
def AIOSerialQueue.new {T : Type} : AIOSerialQueue T :=
  ⟨[], 0, false, none⟩

/-- `close(self, exc=None)`: set `_closed_ev` and store
`exc or AIOSerialQueueClosed()` into `_exc` — unconditionally, so a second
`close` overwrites the previously recorded cause. -/
def AIOSerialQueue.close {T : Type} (q : AIOSerialQueue T) (e : Option Exc) :
    AIOSerialQueue T :=
  { q with closed_ev := true, exc := some (e.getD Exc.queueClosed) }

/-- `raise self._exc`.  Whenever `_closed_ev` is observed set, `_exc` has
already been assigned (both happen inside the single synchronous `close`
call, which runs to completion on the event loop), so the `getD` default
is never reached from API-reachable states. -/
def AIOSerialQueue.raised {T : Type} (q : AIOSerialQueue T) : Exc :=
  q.exc.getD Exc.queueClosed

/-- `get_nowait`: if the queue is empty and closed, raise the stored
cause; otherwise defer to the base-class `get_nowait`, which raises
`QueueEmpty` on an empty queue and otherwise removes and returns the
head item. -/
def AIOSerialQueue.get_nowait {T : Type} (q : AIOSerialQueue T) :
    Except Exc (T × AIOSerialQueue T) :=
  if q.items.length = 0 ∧ q.closed_ev then
    .error q.raised
  else
    match q.items with
    | [] => .error Exc.queueEmpty
    | x :: rest => .ok (x, { q with items := rest })

/-- `put_nowait`: raise the stored cause when closed, else defer to the
base class, which raises `QueueFull` when a bounded queue is at capacity
and otherwise appends the item. -/
def AIOSerialQueue.put_nowait {T : Type} (q : AIOSerialQueue T) (item : T) :
    Except Exc (AIOSerialQueue T) :=
  if q.closed_ev then .error q.raised
  else if 0 < q.maxsize ∧ q.maxsize ≤ q.items.length then .error Exc.queueFull
  else .ok { q with items := q.items ++ [item] }

/-- Completion pattern of the two tasks raced inside the suspending
`get` (`task_q = super().get()`, `task_e = self._closed_ev.wait()`) at
the moment `asyncio.wait(..., FIRST_COMPLETED)` returns, for a call that
passed both fast paths (queue empty and open on entry):

* `itemFirst x` — a producer delivered `x`; `task_q` resumed and dequeued
  it; `task_e` is still pending and gets cancelled.
* `closedFirst c` — `close(c)` ran; `task_e` completed while `task_q` is
  still pending and gets cancelled (its pending dequeue has no effect).
* `bothDone x c` — a producer delivered `x` and `task_q` dequeued it, and
  `close(c)` also ran, both before the waiting coroutine resumed; both
  tasks are complete, so the `cancel()` calls are no-ops. -/
inductive GetRace (T : Type) where
  | itemFirst (x : T)
  | closedFirst (c : Option Exc)
  | bothDone (x : T) (c : Option Exc)
  deriving DecidableEq, Repr

/-- Equality of `Except` values is decidable when it is on both sides. -/
instance {ε α : Type} [DecidableEq ε] [DecidableEq α] :
    DecidableEq (Except ε α) := fun a b => by
  cases a <;> cases b
  case error.error e f =>
    exact if h : e = f then .isTrue (by simp [h]) else .isFalse (by simp [h])
  case error.ok => exact .isFalse (by simp)
  case ok.error => exact .isFalse (by simp)
  case ok.ok x y =>
    exact if h : x = y then .isTrue (by simp [h]) else .isFalse (by simp [h])

/-- Observable outcome of one suspending `get` call: the value returned
or exception raised, the queue state afterwards, and the items this call
removed from the channel (dequeued by the call itself or by its
`task_q`). -/
structure GetOut (T : Type) where
  result : Except Exc T
  queue : AIOSerialQueue T
  consumed : List T
  deriving DecidableEq, Repr

/-- The suspending `get` of `src/AIOSerialQueue.py`.  Fast paths exactly
as in the source: a non-empty queue answers immediately via the
base-class `get_nowait` (even when closed); an empty closed queue raises
the stored cause.  Otherwise the call suspends and the outcome is decided
by the race `race`; in every race outcome the code first checks
`task_e.done()` and raises `self._exc` when it is set — including the
`bothDone` pattern, where `task_q` has already dequeued an item. -/
def AIOSerialQueue.get {T : Type} (q : AIOSerialQueue T) (race : GetRace T) :
    GetOut T :=
  match q.items with
  | x :: rest => ⟨.ok x, { q with items := rest }, [x]⟩
  | [] =>
    if q.closed_ev then ⟨.error q.raised, q, []⟩
    else
      match race with
      | .itemFirst x => ⟨.ok x, q, [x]⟩
      | .closedFirst c =>
        let q' := q.close c
        ⟨.error q'.raised, q', []⟩
      | .bothDone x c =>
        let q' := q.close c
        ⟨.error q'.raised, q', [x]⟩

/-- Completion pattern of the two tasks raced inside the suspending `put`
(`task_q = super().put(item)`, `task_e = self._closed_ev.wait()`) for a
call that passed the fast closed check:

* `enqueueFirst` — `task_q` completed (the item is in the queue; on an
  unbounded queue this happens at its first scheduling); `task_e` is
  pending and gets cancelled.
* `closedFirst c` — `close(c)` ran while `task_q` was still pending
  (only possible while a bounded queue is at capacity); `task_q` is
  cancelled, the item is never enqueued.
* `bothDone c` — `task_q` completed (item enqueued) and `close(c)` also
  ran before the caller resumed; both tasks are done, the `cancel()`
  calls are no-ops, and the enqueued item stays in the queue. -/
inductive PutRace where
  | enqueueFirst
  | closedFirst (c : Option Exc)
  | bothDone (c : Option Exc)
  deriving DecidableEq, Repr

/-- Observable outcome of one suspending `put` call. -/
structure PutOut (T : Type) where
  result : Except Exc Unit
  queue : AIOSerialQueue T
  deriving DecidableEq, Repr

/-- The suspending `put` of `src/AIOSerialQueue.py`: fast path raises the
stored cause when already closed; otherwise the outcome is decided by the
race.  The code checks `task_e.done()` first and raises `self._exc`
whenever the closed event is set — also in the `bothDone` pattern, where
the item has already been appended by the completed `task_q`. -/
def AIOSerialQueue.put {T : Type} (q : AIOSerialQueue T) (item : T)
    (race : PutRace) : PutOut T :=
  if q.closed_ev then ⟨.error q.raised, q⟩
  else
    match race with
    | .enqueueFirst => ⟨.ok (), { q with items := q.items ++ [item] }⟩
    | .closedFirst c =>
      let q' := q.close c
      ⟨.error q'.raised, q'⟩
    | .bothDone c =>
      let q' := q.close c
      ⟨.error q'.raised, { q' with items := q'.items ++ [item] }⟩

/-- A sequence of `put_nowait` calls, stopping at the first failure. -/
def AIOSerialQueue.putMany {T : Type} :
    AIOSerialQueue T → List T → Option (AIOSerialQueue T)
  | q, [] => some q
  | q, x :: rest =>
    match q.put_nowait x with
    | .ok q' => AIOSerialQueue.putMany q' rest
    | .error _ => none

/-!
Model of `src/AIOSerial.py`.  This file defines its own, older
`AIOSerialQueue` class inline: structurally the same queue but WITHOUT a
close cause — `close()` takes no argument and every closed-queue failure
raises a fresh `AIOSerialQueueClosed()`.  We embed that inline class as
`EngineQueue` and the `AIOSerial` engine on top of it.

The worker loops `_rx_thread` / `_tx_thread` run on executor threads and
interact with the queues through `run_coroutine_threadsafe(...).result()`,
i.e. each queue operation runs to completion on the event loop while the
worker blocks for its outcome.  We embed each worker as a function of the
sequence of outcomes its blocking device calls produce, run without
interleaved foreign mutation of its queue (close-vs-data races are the
subject of the `AIOSerialQueue` race model above).
-/

/-- Byte strings handed to and received from the device. -/
abbrev Bytes := List Nat

/-- State of the queue class defined inline in `src/AIOSerial.py`
(lines 11–84): an `asyncio.Queue` plus the `_closed_ev` flag.  There is
no close-cause attribute in this version. -/
structure EngineQueue (T : Type) where
  items : List T
  maxsize : Nat
  closed_ev : Bool
  deriving DecidableEq, Repr

/-- `AIOSerialQueue()` as constructed in `AIOSerial.__init__`: empty,
unbounded, open. -/
def EngineQueue.new {T : Type} : EngineQueue T :=
  ⟨[], 0, false⟩

/-- The inline `close(self)`: set `_closed_ev`.  No cause is recorded —
this version has nowhere to store one. -/
def EngineQueue.close {T : Type} (q : EngineQueue T) : EngineQueue T :=
  { q with closed_ev := true }

/-- Outcome of the inline queue's `put` as observed by a worker blocked
on `run_coroutine_threadsafe(...).result()` (schedule without a
concurrent close between the fast check and the enqueue). -/
inductive EnginePut (T : Type) where
  /-- The item was appended; `put` returned normally. -/
  | enqueued (q : EngineQueue T)
  /-- The fast path saw `_closed_ev` set: `AIOSerialQueueClosed` raised. -/
  | closedErr
  /-- A bounded queue is at capacity: `super().put` suspends for space. -/
  | wouldWait
  deriving DecidableEq, Repr

/-- The inline suspending `put`: raise `AIOSerialQueueClosed` when
closed; otherwise `super().put` appends, suspending only while a bounded
queue is at capacity (never on the engine's unbounded queues). -/
def EngineQueue.put {T : Type} (q : EngineQueue T) (item : T) :
    EnginePut T :=
  if q.closed_ev then .closedErr
  else if 0 < q.maxsize ∧ q.maxsize ≤ q.items.length then .wouldWait
  else .enqueued { q with items := q.items ++ [item] }

/-- A sequence of `put` calls, `none` as soon as one does not enqueue. -/
def EngineQueue.putAll {T : Type} :
    EngineQueue T → List T → Option (EngineQueue T)
  | q, [] => some q
  | q, x :: rest =>
    match q.put x with
    | .enqueued q' => EngineQueue.putAll q' rest
    | .closedErr => none
    | .wouldWait => none

/-- Engine state from `AIOSerial.__init__`: the pyserial handle (its
open flag is all the core consults), the `line_mode` flag and the two
inline queues. -/
structure AIOSerial where
  sp_is_open : Bool
  line_mode : Bool
  rxq : EngineQueue Bytes
  txq : EngineQueue Bytes
  deriving DecidableEq, Repr

/-- `AIOSerial.__init__`: `serial.Serial(...)` may raise
(`openRaises`), and an opened-but-not-open port is also rejected; both
paths re-raise as `AIOSerialException("Unable to open Serial Port")`.
On success both queues are created fresh and the two workers start. -/
def AIOSerial.init (openRaises : Bool) (is_open : Bool)
    (line_mode : Bool) : Except Exc AIOSerial :=
  if openRaises then .error (Exc.aioSerialError "Unable to open Serial Port")
  else if is_open then .ok ⟨true, line_mode, EngineQueue.new, EngineQueue.new⟩
  else .error (Exc.aioSerialError "Unable to open Serial Port")

/-- Outcome of `AIOSerial.read`. -/
inductive ReadRes where
  /-- Data returned, together with the engine state afterwards. -/
  | ok (b : Bytes) (s : AIOSerial)
  /-- The call raised. -/
  | err (e : Exc)
  /-- `self._rxq.get()` reached its suspension point (empty open queue). -/
  | suspends
  deriving DecidableEq, Repr

/-- `AIOSerial.read`: `await self._rxq.get()` — head item if one is
present (even on a closed queue), else `AIOSerialQueueClosed` when the
queue is closed, translated to `AIOSerialException("Serial Port
closed!")`; otherwise the call suspends until data or close. -/
def AIOSerial.read (s : AIOSerial) : ReadRes :=
  match s.rxq.items with
  | b :: rest => .ok b { s with rxq := { s.rxq with items := rest } }
  | [] =>
    if s.rxq.closed_ev then .err (Exc.aioSerialError "Serial Port closed!")
    else .suspends

/-- The argument passed to `AIOSerial.write`, by Python type. -/
inductive WriteArg where
  | bytes (b : Bytes)
  | bytearray (b : Bytes)
  /-- Any type outside `(bytes, bytearray)`, named for the record. -/
  | other (typeName : String)
  deriving DecidableEq, Repr

/-- Outcome of `AIOSerial.write`. -/
inductive WriteRes where
  | ok (s : AIOSerial)
  | err (e : Exc)
  /-- `self._txq.put(data)` suspends for space (bounded queue full). -/
  | suspends
  deriving DecidableEq, Repr

/-- `AIOSerial.write`: reject non-byte payloads with a `TypeError`
before touching the queue, then `await self._txq.put(data)`, translating
`AIOSerialQueueClosed` into `AIOSerialException("Serial Port
closed!")`. -/
def AIOSerial.write (s : AIOSerial) (data : WriteArg) : WriteRes :=
  match data with
  | .other _ => .err (Exc.typeError "Data must be of type bytes or bytearray")
  | .bytes b | .bytearray b =>
    match s.txq.put b with
    | .enqueued q' => .ok { s with txq := q' }
    | .closedErr => .err (Exc.aioSerialError "Serial Port closed!")
    | .wouldWait => .suspends

/-- Outcome of one blocking call of the receive worker's read function
(`self.sp.readline` or `self.sp.read`). -/
inductive ReadEvent where
  /-- The device produced one unit of data. -/
  | data (b : Bytes)
  /-- The device call raised `serial.SerialException`. -/
  | fault (msg : String)
  deriving DecidableEq, Repr

/-- How a worker's executor future ends up, as seen by
`await self._rx_thread_fut` / `await self._tx_thread_fut`:
still blocked in a device call, or finished — either returning normally
(`finished none`) or with an exception escaping the thread function
(`finished (some e)`), which the executor future would re-raise at the
join.  Both embedded workers catch `AIOSerialQueueClosed` and
`serial.SerialException` and `break`, so they only ever produce
`finished none`. -/
inductive ThreadResult where
  | blocked
  | finished (e : Option Exc)
  deriving DecidableEq, Repr

/-- `AIOSerial._rx_thread`: loop reading one unit from the device and
delivering it through `self._rxq.put(...)` (awaited to completion via
`run_coroutine_threadsafe(...).result()`).  `AIOSerialQueueClosed` from
the put breaks the loop; `serial.SerialException` from the read closes
`self._rxq` — the inline `close()`, with no cause — and breaks.  Both
exits return normally from the thread function.  With the device-call
outcomes exhausted the worker is still blocked inside `read_func()`. -/
def rx_thread : List ReadEvent → EngineQueue Bytes →
    EngineQueue Bytes × ThreadResult
  | [], q => (q, .blocked)
  | .data b :: rest, q =>
    match q.put b with
    | .enqueued q' => rx_thread rest q'
    | .closedErr => (q, .finished none)
    | .wouldWait => (q, .blocked)
  | .fault _ :: _, q => (q.close, .finished none)

/-- Running `_rx_thread` against the engine state: only `self._rxq` is
touched. -/
def AIOSerial.rx_thread_run (events : List ReadEvent) (s : AIOSerial) :
    AIOSerial × ThreadResult :=
  ({ s with rxq := (rx_thread events s.rxq).1 }, (rx_thread events s.rxq).2)

/-- What one pass of the transmit worker produced: the buffers it wrote
to the device (in order), the transmit queue afterwards, and how the
thread ended. -/
structure TxOut where
  writes : List Bytes
  queue : EngineQueue Bytes
  result : ThreadResult
  deriving DecidableEq, Repr

/-- Loop body of `AIOSerial._tx_thread` over a queue snapshot with the
given items, capacity and closed flag: `self._txq.get()` returns the head
while items remain (even on a closed queue), raises
`AIOSerialQueueClosed` on an empty closed queue (breaking the loop with a
normal return), and suspends the worker on an empty open queue.  A
retrieved buffer is written with `self.sp.write`; `writeOk b = false`
means that write raised `serial.SerialException`, upon which the worker
closes `self._txq` (inline `close()`, no cause) and breaks. -/
def tx_loop (writeOk : Bytes → Bool) (maxsize : Nat) (closed : Bool) :
    List Bytes → TxOut
  | [] =>
    if closed then ⟨[], ⟨[], maxsize, closed⟩, .finished none⟩
    else ⟨[], ⟨[], maxsize, closed⟩, .blocked⟩
  | b :: rest =>
    if writeOk b then
      let r := tx_loop writeOk maxsize closed rest
      ⟨b :: r.writes, r.queue, r.result⟩
    else ⟨[], ⟨rest, maxsize, true⟩, .finished none⟩

/-- `AIOSerial._tx_thread` on a transmit-queue state. -/
def tx_thread (writeOk : Bytes → Bool) (q : EngineQueue Bytes) : TxOut :=
  tx_loop writeOk q.maxsize q.closed_ev q.items

/-- Running `_tx_thread` against the engine state: only `self._txq` is
touched. -/
def AIOSerial.tx_thread_run (writeOk : Bytes → Bool) (s : AIOSerial) :
    AIOSerial × List Bytes × ThreadResult :=
  ({ s with txq := (tx_thread writeOk s.txq).queue },
   (tx_thread writeOk s.txq).writes, (tx_thread writeOk s.txq).result)

/-- The externally visible steps taken by `AIOSerial.close`, in program
order. -/
inductive CloseAction where
  /-- `self._txq.close()` -/
  | closeTxq
  /-- `await self._tx_thread_fut` -/
  | joinTx
  /-- `self._rxq.close()` -/
  | closeRxq
  /-- `self.sp.cancel_read()` -/
  | cancelRead
  /-- `await self._rx_thread_fut` -/
  | joinRx
  /-- `self.sp.close()` -/
  | closePort
  deriving DecidableEq, Repr

/-- The statement sequence of `AIOSerial.close`, as the list of actions
it performs.  `txJoin` / `rxJoin` are the exceptions (if any) re-raised
by awaiting the corresponding executor future; an exception propagates
out of `close` immediately, and the method body has no try/finally, so
every later line — including `self.sp.close()` — is skipped. -/
def AIOSerial.close_run (txJoin rxJoin : Option Exc) : List CloseAction :=
  [CloseAction.closeTxq, CloseAction.joinTx] ++
  match txJoin with
  | some _ => []
  | none =>
    [CloseAction.closeRxq, CloseAction.cancelRead, CloseAction.joinRx] ++
    match rxJoin with
    | some _ => []
    | none => [CloseAction.closePort]

/-- A successful `get_nowait` removes exactly one item. -/
theorem AIOSerialQueue.get_nowait_ok_lt {T : Type} {q : AIOSerialQueue T}
    {p : T × AIOSerialQueue T} (h : q.get_nowait = Except.ok p) :
    p.2.items.length < q.items.length := by
  unfold AIOSerialQueue.get_nowait at h
  split at h
  · exact absurd h (by simp)
  · cases hq : q.items with
    | nil => rw [hq] at h; exact absurd h (by simp)
    | cons x rest =>
      rw [hq] at h
      injection h with h
      subst h
      simp [hq]

/-- Exhaustively iterate `get_nowait` until it raises, collecting the
items obtained in order together with the exception that finally
stopped the drain. -/
def AIOSerialQueue.drainAll {T : Type} (q : AIOSerialQueue T) :
    List T × Exc :=
  match h : q.get_nowait with
  | .error e => ([], e)
  | .ok p =>
    have _hlt := AIOSerialQueue.get_nowait_ok_lt h
    let r := AIOSerialQueue.drainAll p.2
    (p.1 :: r.1, r.2)
termination_by q.items.length
decreasing_by exact AIOSerialQueue.get_nowait_ok_lt h

/-- Draining a closed queue returns all buffered items in FIFO order and
then raises the stored cause. -/
theorem AIOSerialQueue.drainAll_closed {T : Type} (l : List T) (ms : Nat)
    (c : Exc) :
    AIOSerialQueue.drainAll ⟨l, ms, true, some c⟩ = (l, c) := by
  induction l with
  | nil =>
    rw [AIOSerialQueue.drainAll]
    simp [AIOSerialQueue.get_nowait, AIOSerialQueue.raised]
  | cons x rest ih =>
    rw [AIOSerialQueue.drainAll]
    simp [AIOSerialQueue.get_nowait, AIOSerialQueue.raised, ih]

/-- C3 counterexample: the first close does NOT win.  Closing an
already-closed queue overwrites the recorded cause (`close`
unconditionally assigns `self._exc`), so after `close(first)` followed by
`close(second)` a failing `get_nowait` raises the second cause, not the
originally recorded one. -/
theorem c3_first_close_does_not_win :
    (((AIOSerialQueue.new : AIOSerialQueue Nat).close
        (some (Exc.aioSerialError "first cause"))).exc
      = some (Exc.aioSerialError "first cause"))
    ∧ ((((AIOSerialQueue.new : AIOSerialQueue Nat).close
        (some (Exc.aioSerialError "first cause"))).close
        (some (Exc.aioSerialError "second cause"))).exc
      = some (Exc.aioSerialError "second cause"))
    ∧ ((((AIOSerialQueue.new : AIOSerialQueue Nat).close
        (some (Exc.aioSerialError "first cause"))).close
        (some (Exc.aioSerialError "second cause"))).get_nowait
      = Except.error (Exc.aioSerialError "second cause")) :=
  ⟨rfl, rfl, rfl⟩

/-- C3 (amended): `close(cause)` sets the closed flag, records the
supplied cause (default `AIOSerialQueueClosed` when none is given) and
preserves buffered items; closing an already-closed queue is safe for the
flag and the items but the cause recorded by the LAST close wins; every
later failing `get`/`get_nowait`/`put`/`put_nowait` raises the most
recently recorded cause. -/
theorem c3_close_records_last_cause (q : AIOSerialQueue Nat)
    (e : Option Exc) (c₁ c₂ : Exc) (item : Nat) (race : PutRace)
    (grace : GetRace Nat) :
    (q.close e).closed_ev = true
    ∧ (q.close e).exc = some (e.getD Exc.queueClosed)
    ∧ (q.close e).items = q.items
    ∧ ((q.close (some c₁)).close (some c₂)).closed_ev = true
    ∧ ((q.close (some c₁)).close (some c₂)).exc = some c₂
    ∧ ((q.close e).items = [] →
        (q.close e).get_nowait = Except.error (e.getD Exc.queueClosed))
    ∧ (q.close e).put_nowait item = Except.error (e.getD Exc.queueClosed)
    ∧ ((q.close e).items = [] →
        ((q.close e).get grace).result
          = Except.error (e.getD Exc.queueClosed))
    ∧ ((q.close e).put item race).result
      = Except.error (e.getD Exc.queueClosed) := by
  rcases q with ⟨items, ms, cl, ex⟩
  refine ⟨rfl, rfl, rfl, rfl, rfl, ?_, ?_, ?_, ?_⟩
  · intro h
    simp only [AIOSerialQueue.close] at h ⊢
    subst h
    simp [AIOSerialQueue.get_nowait, AIOSerialQueue.raised]
  · simp [AIOSerialQueue.put_nowait, AIOSerialQueue.close,
      AIOSerialQueue.raised]
  · intro h
    simp only [AIOSerialQueue.close] at h ⊢
    subst h
    simp [AIOSerialQueue.get, AIOSerialQueue.raised]
  · simp [AIOSerialQueue.put, AIOSerialQueue.close, AIOSerialQueue.raised]

/-- Witness for the amended C3 theorem at a concrete queue. -/
theorem c3_close_records_last_cause_witness :
    (((AIOSerialQueue.new : AIOSerialQueue Nat).close none).items = [])
    ∧ ((((AIOSerialQueue.new : AIOSerialQueue Nat).close none).get
        (GetRace.itemFirst 0)).result = Except.error Exc.queueClosed) :=
  ⟨rfl,
    (c3_close_records_last_cause (AIOSerialQueue.new : AIOSerialQueue Nat)
      none Exc.queueClosed Exc.queueEmpty 0 PutRace.enqueueFirst
      (GetRace.itemFirst 0)).2.2.2.2.2.2.2.1 rfl⟩

/-- C4 counterexample: `put` is not atomic with respect to `close`.  In
the realizable schedule where the enqueue task completes and a concurrent
`close` also completes before the waiting coroutine resumes
(`PutRace.bothDone`), `put` raises `QueueClosed` while the item remains
enqueued — the item is both enqueued and reported as failed. -/
theorem c4_put_bothDone_enqueues_and_fails :
    (((AIOSerialQueue.new : AIOSerialQueue Nat).put 5
        (PutRace.bothDone none)).result = Except.error Exc.queueClosed)
    ∧ (((AIOSerialQueue.new : AIOSerialQueue Nat).put 5
        (PutRace.bothDone none)).queue.items = [5]) :=
  ⟨rfl, rfl⟩

/-- C4 (amended): outcome of `put` on every path.  On the fast path
(queue already closed at entry) `put` raises the stored cause and the
queue — in particular its item list — is untouched, so the item is not
enqueued.  Past the fast path: when the enqueue side alone completes
(`enqueueFirst`), `put` returns normally and the item is enqueued — and
since the call is over, a close immediately afterwards only affects
later calls; when the close side alone completes (`closedFirst`), `put`
raises the newly recorded cause and the item is not enqueued (the
pending enqueue task is cancelled); but when both racing tasks had
completed before the caller resumed (`bothDone`), `put` raises the newly
recorded cause while the item stays enqueued — the completed enqueue is
not discarded, so an item CAN be both enqueued and reported as failed. -/
theorem c4_put_effect (q : AIOSerialQueue Nat) (item : Nat)
    (race : PutRace) :
    (q.closed_ev = true →
        ((q.put item race).result = Except.error q.raised
          ∧ (q.put item race).queue = q))
    ∧ (q.closed_ev = false →
        ((race = PutRace.enqueueFirst →
            ((q.put item race).result = Except.ok ()
              ∧ (q.put item race).queue.items = q.items ++ [item]))
          ∧ (∀ c, race = PutRace.closedFirst c →
              ((q.put item race).result
                  = Except.error (c.getD Exc.queueClosed)
                ∧ (q.put item race).queue.items = q.items))
          ∧ (∀ c, race = PutRace.bothDone c →
              ((q.put item race).result
                  = Except.error (c.getD Exc.queueClosed)
                ∧ (q.put item race).queue.items = q.items ++ [item])))) := by
  rcases q with ⟨items, ms, cl, ex⟩
  constructor
  · intro hcl
    simp only at hcl
    subst hcl
    exact ⟨rfl, rfl⟩
  · intro hcl
    simp only at hcl
    subst hcl
    refine ⟨?_, ?_, ?_⟩
    · intro hr
      subst hr
      exact ⟨rfl, rfl⟩
    · intro c hr
      subst hr
      constructor
      · simp [AIOSerialQueue.put, AIOSerialQueue.close, AIOSerialQueue.raised]
      · simp [AIOSerialQueue.put, AIOSerialQueue.close]
    · intro c hr
      subst hr
      constructor
      · simp [AIOSerialQueue.put, AIOSerialQueue.close, AIOSerialQueue.raised]
      · simp [AIOSerialQueue.put, AIOSerialQueue.close]

/-- Witness for the amended C4 theorem: on a concrete open queue with the
enqueue-wins schedule, `put` returns normally and the item is enqueued;
with the close-wins schedule it fails and the item is not enqueued. -/
theorem c4_put_effect_witness :
    ((AIOSerialQueue.new : AIOSerialQueue Nat).closed_ev = false)
    ∧ (((AIOSerialQueue.new : AIOSerialQueue Nat).put 3
          PutRace.enqueueFirst).result = Except.ok ()
        ∧ ((AIOSerialQueue.new : AIOSerialQueue Nat).put 3
            PutRace.enqueueFirst).queue.items = [3])
    ∧ (((AIOSerialQueue.new : AIOSerialQueue Nat).put 3
          (PutRace.closedFirst none)).result = Except.error Exc.queueClosed
        ∧ ((AIOSerialQueue.new : AIOSerialQueue Nat).put 3
            (PutRace.closedFirst none)).queue.items = []) :=
  ⟨rfl,
    ((c4_put_effect (AIOSerialQueue.new : AIOSerialQueue Nat) 3
      PutRace.enqueueFirst).2 rfl).1 rfl,
    ((c4_put_effect (AIOSerialQueue.new : AIOSerialQueue Nat) 3
      (PutRace.closedFirst none)).2 rfl).2.1 none rfl⟩

/-- C5 counterexample: the close-vs-data race inside `get` can lose an
item.  In the realizable schedule where a producer delivers an item (the
dequeue task completes, removing it) and a concurrent `close` also
completes before the waiting coroutine resumes (`GetRace.bothDone`),
`get` raises `QueueClosed` even though one item was consumed — the item
is returned to no caller. -/
theorem c5_get_bothDone_loses_item :
    (((AIOSerialQueue.new : AIOSerialQueue Nat).get
        (GetRace.bothDone 7 none)).result = Except.error Exc.queueClosed)
    ∧ (((AIOSerialQueue.new : AIOSerialQueue Nat).get
        (GetRace.bothDone 7 none)).consumed = [7]) :=
  ⟨rfl, rfl⟩

/-- C5 (amended): when `get` fails with `QueueClosed` no item was
consumed — UNLESS both racing tasks had completed before the caller
resumed (`bothDone`), in which case the item dequeued by the completed
data-side task is discarded unreturned; when `get` succeeds, exactly the
returned item was consumed. -/
theorem c5_get_consumed (q : AIOSerialQueue Nat) (race : GetRace Nat) :
    (∀ e, (q.get race).result = Except.error e →
        ((q.get race).consumed = []
          ∨ ∃ x c, race = GetRace.bothDone x c))
    ∧ (∀ x, (q.get race).result = Except.ok x →
        (q.get race).consumed = [x]) := by
  rcases q with ⟨items, ms, cl, ex⟩
  cases items with
  | cons y rest =>
    constructor
    · intro e he
      simp [AIOSerialQueue.get] at he
    · intro x hx
      simp [AIOSerialQueue.get] at hx ⊢
      exact hx
  | nil =>
    cases cl with
    | true =>
      constructor
      · intro e _
        left
        simp [AIOSerialQueue.get]
      · intro x hx
        simp [AIOSerialQueue.get] at hx
    | false =>
      cases race with
      | itemFirst y =>
        constructor
        · intro e he
          simp [AIOSerialQueue.get] at he
        · intro x hx
          simp [AIOSerialQueue.get] at hx ⊢
          exact hx
      | closedFirst c =>
        constructor
        · intro e _
          left
          simp [AIOSerialQueue.get]
        · intro x hx
          simp [AIOSerialQueue.get] at hx
      | bothDone y c =>
        constructor
        · intro e _
          right
          exact ⟨y, c, rfl⟩
        · intro x hx
          simp [AIOSerialQueue.get] at hx

/-- Witness for the amended C5 theorem at a concrete queue and race. -/
theorem c5_get_consumed_witness :
    (((AIOSerialQueue.new : AIOSerialQueue Nat).get
        (GetRace.closedFirst none)).result = Except.error Exc.queueClosed)
    ∧ ((((AIOSerialQueue.new : AIOSerialQueue Nat).get
          (GetRace.closedFirst none)).consumed = [])
        ∨ ∃ x c, (GetRace.closedFirst none : GetRace Nat)
            = GetRace.bothDone x c) :=
  ⟨rfl,
    (c5_get_consumed (AIOSerialQueue.new : AIOSerialQueue Nat)
      (GetRace.closedFirst none)).1 Exc.queueClosed rfl⟩

/-- On an open unbounded queue every `put_nowait` succeeds, appending in
order. -/
theorem AIOSerialQueue.putMany_open {T : Type} (l : List T) :
    ∀ q : AIOSerialQueue T, q.closed_ev = false → q.maxsize = 0 →
      AIOSerialQueue.putMany q l = some { q with items := q.items ++ l } := by
  induction l with
  | nil =>
    intro q _ _
    simp [AIOSerialQueue.putMany]
  | cons x rest ih =>
    intro q h1 h2
    have hp : q.put_nowait x = Except.ok { q with items := q.items ++ [x] } := by
      simp [AIOSerialQueue.put_nowait, h1, h2]
    simp only [AIOSerialQueue.putMany, hp]
    rw [ih { q with items := q.items ++ [x] } h1 h2]
    simp

/-- C6 (confirmed): items accepted before `close` are still returned,
in FIFO order, before the closed-queue exception is raised, and only a
drained closed queue makes further gets fail; moreover `get` with an
item present returns it immediately — independently of the close race
and even on a closed queue. -/
theorem c6_fifo_drain_before_fail {T : Type} (l : List T) (e : Option Exc)
    (q : AIOSerialQueue T) (x : T) (rest : List T) (race : GetRace T) :
    (∃ qf, AIOSerialQueue.putMany AIOSerialQueue.new l = some qf
        ∧ (qf.close e).drainAll = (l, e.getD Exc.queueClosed))
    ∧ (q.items = x :: rest →
        q.get race = ⟨Except.ok x, { q with items := rest }, [x]⟩) := by
  constructor
  · refine ⟨⟨l, 0, false, none⟩, ?_, ?_⟩
    · have h := AIOSerialQueue.putMany_open l
        (AIOSerialQueue.new : AIOSerialQueue T) rfl rfl
      simpa [AIOSerialQueue.new] using h
    · exact AIOSerialQueue.drainAll_closed l 0 (e.getD Exc.queueClosed)
  · intro h
    rcases q with ⟨items, ms, cl, ex⟩
    simp only at h
    subst h
    simp [AIOSerialQueue.get]

/-- Witness for the C6 theorem at a concrete put sequence and queue. -/
theorem c6_fifo_drain_before_fail_witness :
    ((⟨[4, 5], 0, true, some Exc.queueClosed⟩ : AIOSerialQueue Nat).items
      = 4 :: [5])
    ∧ (∃ qf, AIOSerialQueue.putMany (AIOSerialQueue.new : AIOSerialQueue Nat)
          [1, 2, 3] = some qf
        ∧ (qf.close none).drainAll = ([1, 2, 3], Exc.queueClosed))
    ∧ ((⟨[4, 5], 0, true, some Exc.queueClosed⟩ : AIOSerialQueue Nat).get
          (GetRace.closedFirst (some Exc.queueEmpty))
        = ⟨Except.ok 4, ⟨[5], 0, true, some Exc.queueClosed⟩, [4]⟩) := by
  have h := c6_fifo_drain_before_fail [1, 2, 3] none
    (⟨[4, 5], 0, true, some Exc.queueClosed⟩ : AIOSerialQueue Nat) 4 [5]
    (GetRace.closedFirst (some Exc.queueEmpty))
  exact ⟨rfl, h.1, h.2 rfl⟩

/-- C1: evaluating the receive worker at the failing input — the device
read raises `serial.SerialException` on an open engine.  The worker
closes the receive queue through the inline `close()` (which has no
cause parameter, so no `FatalError` — nor anything else — is recorded as
a close cause; the inline queue state has no cause slot at all) and the
thread function returns normally, so the join performed by `close()`
observes `finished none` and reports no error.  A subsequent `read()`
does fail with `AIOSerialException("Serial Port closed!")`. -/
theorem c1_rx_fault_closes_without_cause :
    ((AIOSerial.rx_thread_run [ReadEvent.fault "device fault"]
        ⟨true, false, EngineQueue.new, EngineQueue.new⟩).2
      = ThreadResult.finished none)
    ∧ ((AIOSerial.rx_thread_run [ReadEvent.fault "device fault"]
        ⟨true, false, EngineQueue.new, EngineQueue.new⟩).1.rxq.closed_ev
      = true)
    ∧ (AIOSerial.read (AIOSerial.rx_thread_run
        [ReadEvent.fault "device fault"]
        ⟨true, false, EngineQueue.new, EngineQueue.new⟩).1
      = ReadRes.err (Exc.aioSerialError "Serial Port closed!")) :=
  ⟨rfl, rfl, rfl⟩

/-- C2 counterexample: the teardown order the claim describes is not the
code's order.  `close()` starts with `self._txq.close()` and awaits the
transmit worker BEFORE closing the receive queue, and
`self.sp.cancel_read()` comes only fourth; and since the method has no
try/finally, `self.sp.close()` is skipped when awaiting the transmit
worker raises. -/
theorem c2_close_order_counterexample :
    (AIOSerial.close_run none none
      = [CloseAction.closeTxq, CloseAction.joinTx, CloseAction.closeRxq,
         CloseAction.cancelRead, CloseAction.joinRx, CloseAction.closePort])
    ∧ CloseAction.closePort ∉ AIOSerial.close_run (some Exc.queueClosed) none := by
  exact ⟨rfl, by decide⟩

/-- C2 (amended): `close()` closes the transmit queue, awaits the
transmit worker, then closes the receive queue, requests cancellation of
the in-flight blocking read, awaits the receive worker, and finally
closes the Port Driver handle; the handle is closed at most once, and it
is closed only when both joins return without raising — there is no
guaranteed-release protection around it. -/
theorem c2_close_sequence (te re : Option Exc) :
    (AIOSerial.close_run none none
      = [CloseAction.closeTxq, CloseAction.joinTx, CloseAction.closeRxq,
         CloseAction.cancelRead, CloseAction.joinRx, CloseAction.closePort])
    ∧ (AIOSerial.close_run te re).count CloseAction.closePort ≤ 1
    ∧ (te.isSome = true →
        AIOSerial.close_run te re = [CloseAction.closeTxq, CloseAction.joinTx])
    ∧ (te = none → re.isSome = true →
        AIOSerial.close_run te re
          = [CloseAction.closeTxq, CloseAction.joinTx, CloseAction.closeRxq,
             CloseAction.cancelRead, CloseAction.joinRx]) := by
  refine ⟨rfl, ?_, ?_, ?_⟩
  · cases te <;> cases re <;> simp [AIOSerial.close_run]
  · intro h
    cases te with
    | none => simp at h
    | some e => rfl
  · intro h1 h2
    subst h1
    cases re with
    | none => simp at h2
    | some e => rfl

/-- Witness for the amended C2 theorem at concrete join outcomes. -/
theorem c2_close_sequence_witness :
    ((some Exc.queueClosed).isSome = true)
    ∧ (AIOSerial.close_run (some Exc.queueClosed) none
      = [CloseAction.closeTxq, CloseAction.joinTx]) :=
  ⟨rfl, (c2_close_sequence (some Exc.queueClosed) none).2.2.1 rfl⟩

/-- C7 counterexample: after the channel is closed, `read()` does NOT
always fail — data buffered in the receive queue before the close is
still returned.  On an engine whose queues are both closed but whose
receive queue still holds one buffer, `read()` succeeds. -/
theorem c7_read_after_close_returns_buffered_data :
    ((⟨true, false, ⟨[[1]], 0, true⟩, ⟨[], 0, true⟩⟩ : AIOSerial).rxq.closed_ev
      = true)
    ∧ (AIOSerial.read ⟨true, false, ⟨[[1]], 0, true⟩, ⟨[], 0, true⟩⟩
      = ReadRes.ok [1] ⟨true, false, ⟨[], 0, true⟩, ⟨[], 0, true⟩⟩) :=
  ⟨rfl, rfl⟩

/-- C7 (amended): once the channel is closed AND the receive queue is
drained, every `read()` fails with `AIOSerialException("Serial Port
closed!")` — while buffered items remain, `read()` still returns them
first — and every `write(valid bytes)` on the closed channel fails with
the same exception immediately; that exception value is distinct from
the construction-time `AIOSerialException("Unable to open Serial Port")`
(same Python class, different message), is never the raw
`serial.SerialException`, and neither call suspends. -/
theorem c7_closed_surface (s : AIOSerial) (b : Bytes)
    (h1 : s.rxq.closed_ev = true) (h2 : s.rxq.items = [])
    (h3 : s.txq.closed_ev = true) :
    (AIOSerial.read s = ReadRes.err (Exc.aioSerialError "Serial Port closed!"))
    ∧ (AIOSerial.write s (WriteArg.bytes b)
      = WriteRes.err (Exc.aioSerialError "Serial Port closed!"))
    ∧ (AIOSerial.write s (WriteArg.bytearray b)
      = WriteRes.err (Exc.aioSerialError "Serial Port closed!"))
    ∧ (Exc.aioSerialError "Serial Port closed!"
      ≠ Exc.aioSerialError "Unable to open Serial Port")
    ∧ (∀ m, Exc.aioSerialError "Serial Port closed!" ≠ Exc.serialError m) := by
  refine ⟨?_, ?_, ?_, by decide, by intro m h; cases h⟩
  · simp [AIOSerial.read, h1, h2]
  · simp [AIOSerial.write, EngineQueue.put, h3]
  · simp [AIOSerial.write, EngineQueue.put, h3]

/-- Witness for the amended C7 theorem at a concrete closed engine. -/
theorem c7_closed_surface_witness :
    ((⟨true, false, ⟨[], 0, true⟩, ⟨[], 0, true⟩⟩ : AIOSerial).rxq.closed_ev
        = true)
    ∧ (AIOSerial.read ⟨true, false, ⟨[], 0, true⟩, ⟨[], 0, true⟩⟩
      = ReadRes.err (Exc.aioSerialError "Serial Port closed!"))
    ∧ (AIOSerial.write ⟨true, false, ⟨[], 0, true⟩, ⟨[], 0, true⟩⟩
        (WriteArg.bytes [65])
      = WriteRes.err (Exc.aioSerialError "Serial Port closed!")) :=
  ⟨rfl,
    (c7_closed_surface ⟨true, false, ⟨[], 0, true⟩, ⟨[], 0, true⟩⟩ [65]
      rfl rfl rfl).1,
    (c7_closed_surface ⟨true, false, ⟨[], 0, true⟩, ⟨[], 0, true⟩⟩ [65]
      rfl rfl rfl).2.1⟩

/-- C8 (confirmed): direction isolation.  The receive worker never
touches the transmit queue (on any device input, faults included) and
the transmit worker never touches the receive queue; a receive device
fault closes the receive queue while the transmit queue's closed flag is
untouched; a transmit device fault closes the transmit queue while the
receive queue is untouched; and after any receive-worker run the
transmit worker's behaviour is unchanged. -/
theorem c8_direction_isolation (s : AIOSerial) (events : List ReadEvent)
    (writeOk : Bytes → Bool) (m : String) :
    ((AIOSerial.rx_thread_run events s).1.txq = s.txq)
    ∧ ((AIOSerial.tx_thread_run writeOk s).1.rxq = s.rxq)
    ∧ ((AIOSerial.rx_thread_run (ReadEvent.fault m :: events) s).1.rxq.closed_ev
      = true)
    ∧ ((AIOSerial.rx_thread_run (ReadEvent.fault m :: events) s).1.txq.closed_ev
      = s.txq.closed_ev)
    ∧ (∀ b rest, s.txq.items = b :: rest → writeOk b = false →
        ((AIOSerial.tx_thread_run writeOk s).1.txq.closed_ev = true
          ∧ (AIOSerial.tx_thread_run writeOk s).1.rxq = s.rxq))
    ∧ (tx_thread writeOk (AIOSerial.rx_thread_run events s).1.txq
      = tx_thread writeOk s.txq) := by
  refine ⟨rfl, rfl, rfl, rfl, ?_, rfl⟩
  intro b rest hitems hw
  constructor
  · simp [AIOSerial.tx_thread_run, tx_thread, hitems, tx_loop, hw]
  · rfl

/-- Witness for the C8 theorem at a concrete engine and schedules. -/
theorem c8_direction_isolation_witness :
    ((⟨true, false, EngineQueue.new, ⟨[[9]], 0, false⟩⟩ : AIOSerial).txq.items
      = [9] :: [])
    ∧ ((fun _ : Bytes => false) [9] = false)
    ∧ ((AIOSerial.tx_thread_run (fun _ => false)
        ⟨true, false, EngineQueue.new, ⟨[[9]], 0, false⟩⟩).1.txq.closed_ev
      = true) := by
  have h := c8_direction_isolation
    ⟨true, false, EngineQueue.new, ⟨[[9]], 0, false⟩⟩ [] (fun _ => false) "m"
  exact ⟨rfl, rfl, (h.2.2.2.2.1 [9] [] rfl rfl).1⟩

/-- Draining a closed transmit queue writes every buffered item, in
order, and ends the worker cleanly. -/
theorem tx_loop_drains (ms : Nat) (l : List Bytes) :
    tx_loop (fun _ => true) ms true l
      = ⟨l, ⟨[], ms, true⟩, ThreadResult.finished none⟩ := by
  induction l with
  | nil => simp [tx_loop]
  | cons x rest ih => simp [tx_loop, ih]

/-- C9 (confirmed): a normal `close()` flushes the transmit direction.
`close()` first closes the transmit queue and then awaits the transmit
worker; on the closed queue the worker keeps dequeuing and writing each
remaining buffer (device writes succeeding) until the queue is empty and
then exits cleanly, writing exactly the buffered items in FIFO order;
every buffer accepted by `write()` was appended to that queue; and the
port handle close comes only after the transmit join in the teardown
sequence. -/
theorem c9_close_flushes_tx (l : List Bytes) (ms : Nat) (s : AIOSerial)
    (b : Bytes) (s' : AIOSerial) :
    (tx_thread (fun _ => true) ⟨l, ms, true⟩
      = ⟨l, ⟨[], ms, true⟩, ThreadResult.finished none⟩)
    ∧ (AIOSerial.write s (WriteArg.bytes b) = WriteRes.ok s' →
        s'.txq.items = s.txq.items ++ [b])
    ∧ (AIOSerial.close_run none none
      = [CloseAction.closeTxq, CloseAction.joinTx, CloseAction.closeRxq,
         CloseAction.cancelRead, CloseAction.joinRx, CloseAction.closePort]) := by
  refine ⟨tx_loop_drains ms l, ?_, rfl⟩
  intro h
  simp only [AIOSerial.write] at h
  rcases hp : s.txq.put b with q' | _ | _ <;> simp only [hp] at h
  · rw [WriteRes.ok.injEq] at h
    subst h
    unfold EngineQueue.put at hp
    split at hp
    · cases hp
    · split at hp
      · cases hp
      · rw [EnginePut.enqueued.injEq] at hp
        subst hp
        simp
  · cases h
  · cases h

/-- Witness for the C9 theorem at a concrete queue and write. -/
theorem c9_close_flushes_tx_witness :
    (AIOSerial.write ⟨true, false, EngineQueue.new, EngineQueue.new⟩
        (WriteArg.bytes [7])
      = WriteRes.ok ⟨true, false, EngineQueue.new, ⟨[[7]], 0, false⟩⟩)
    ∧ ((⟨true, false, EngineQueue.new, ⟨[[7]], 0, false⟩⟩ : AIOSerial).txq.items
      = (⟨true, false, EngineQueue.new, EngineQueue.new⟩ : AIOSerial).txq.items
        ++ [[7]]) := by
  have h := c9_close_flushes_tx [[7]] 0
    ⟨true, false, EngineQueue.new, EngineQueue.new⟩ [7]
    ⟨true, false, EngineQueue.new, ⟨[[7]], 0, false⟩⟩
  exact ⟨rfl, h.2.1 rfl⟩

/-- On an open unbounded engine queue every `put` enqueues, in order. -/
theorem EngineQueue.putAll_open {T : Type} (l : List T) :
    ∀ q : EngineQueue T, q.closed_ev = false → q.maxsize = 0 →
      EngineQueue.putAll q l = some { q with items := q.items ++ l } := by
  induction l with
  | nil =>
    intro q _ _
    simp [EngineQueue.putAll]
  | cons x rest ih =>
    intro q h1 h2
    have hp : q.put x = EnginePut.enqueued { q with items := q.items ++ [x] } := by
      simp [EngineQueue.put, h1, h2]
    simp only [EngineQueue.putAll, hp]
    rw [ih { q with items := q.items ++ [x] } h1 h2]
    simp

/-- C10 (confirmed): the engine constructs both queues with the default
`maxsize = 0` (no capacity bound); on an open engine a `write` with a
valid byte-buffer enqueues immediately and never suspends for space
(true for any engine whose transmit queue is unbounded), and the receive
queue accepts any number of buffers — it can grow without bound, with no
capacity-based backpressure. -/
theorem c10_unbounded_queues (openRaises is_open lm : Bool) (s : AIOSerial)
    (b : Bytes) (l : List Bytes)
    (h : AIOSerial.init openRaises is_open lm = Except.ok s) :
    (s.rxq = EngineQueue.new ∧ s.txq = EngineQueue.new)
    ∧ (s.rxq.maxsize = 0 ∧ s.txq.maxsize = 0)
    ∧ (∃ s', AIOSerial.write s (WriteArg.bytes b) = WriteRes.ok s')
    ∧ (∀ t : AIOSerial, t.txq.maxsize = 0 →
        AIOSerial.write t (WriteArg.bytes b) ≠ WriteRes.suspends)
    ∧ (EngineQueue.putAll s.rxq l = some ⟨l, 0, false⟩) := by
  have hs : s = ⟨true, lm, EngineQueue.new, EngineQueue.new⟩ := by
    unfold AIOSerial.init at h
    cases openRaises with
    | true => cases h
    | false =>
      cases is_open with
      | true =>
        cases h
        rfl
      | false => cases h
  subst hs
  refine ⟨⟨rfl, rfl⟩, ⟨rfl, rfl⟩, ⟨_, rfl⟩, ?_, ?_⟩
  · intro t ht
    simp only [AIOSerial.write]
    rcases hp : t.txq.put b with q' | _ | _
    · simp [hp]
    · simp [hp]
    · exfalso
      unfold EngineQueue.put at hp
      rw [ht] at hp
      split at hp
      · cases hp
      · simp at hp
  · have h0 := EngineQueue.putAll_open l (EngineQueue.new : EngineQueue Bytes)
      rfl rfl
    simpa [EngineQueue.new] using h0

/-- Witness for the C10 theorem at a concrete successful construction. -/
theorem c10_unbounded_queues_witness :
    (AIOSerial.init false true false
      = Except.ok ⟨true, false, EngineQueue.new, EngineQueue.new⟩)
    ∧ (EngineQueue.putAll
        (⟨true, false, EngineQueue.new, EngineQueue.new⟩ : AIOSerial).rxq
        [[1], [2]]
      = some ⟨[[1], [2]], 0, false⟩) :=
  ⟨rfl,
    (c10_unbounded_queues false true false
      ⟨true, false, EngineQueue.new, EngineQueue.new⟩ [0] [[1], [2]]
      rfl).2.2.2.2⟩
